import Mathlib

/-!
Verification of the Resume-Rag query pipeline (src/app.py).

The Python source is shallowly embedded: remote services (object storage,
the embedding model, the completion model) appear as explicit function
parameters, and the Dash callback becomes a pure function from its trigger
and state to its outputs. Machine-level string operations that the Python
standard library supplies (str.join, str.endswith, os.path.basename) are
reproduced at the character-list level so concrete instances evaluate.
-/

/-- Document chunk as consumed on app.py line 102, which reads the section
entry of doc.metadata and doc.page_content. -/
structure Doc where
  «section» : String
  page_content : String
deriving DecidableEq

/-- Python str.join semantics, sep.join(parts): empty for no parts, the
single part alone, and otherwise the parts with sep between consecutive
ones. Used for the newline join on app.py line 102. -/
def joinSep (sep : String) : List String → String
  | [] => ""
  | [x] => x
  | x :: y :: rest => x ++ sep ++ joinSep sep (y :: rest)

/-- Context assembly, app.py line 102: for each retrieved doc emit an open
bracket, the section label, a close bracket, a newline and the page
content, with the blocks joined by newlines. -/
def assembleContext (docs : List Doc) : String :=
  joinSep "\n" (docs.map fun doc => "[" ++ doc.«section» ++ "]\n" ++ doc.page_content)

/-- Body of the try block of CVQueryApp.query, app.py lines 96-121:
retrieval, context assembly and generation in sequence, where each remote
step may fail. The retr parameter stands for the mmr retriever call of
lines 97-100 applied to the question, and gen for the chat-completion call
of lines 104-121 applied to the assembled context and the question. -/
def pipelineRun (retr : String → Except String (List Doc))
    (gen : String → String → Except String String)
    (question : String) : Except String String := do
  let docs ← retr question
  let context := assembleContext docs
  gen context question

/-- CVQueryApp.query, app.py lines 95-124: run the pipeline and on any
exception return the message of the exception behind the error marker
(line 124) instead of raising. -/
def CVQueryApp.query (retr : String → Except String (List Doc))
    (gen : String → String → Except String String)
    (question : String) : String :=
  match pipelineRun retr gen question with
  | Except.ok ans => ans
  | Except.error e => "Error: " ++ e

/-- One entry of the chat store, app.py line 352. -/
structure ChatPair where
  user : String
  bot : String
deriving DecidableEq

/-- Rendered elements of the chat-history children, app.py lines 354-374. -/
inductive Rendered where
  | userBubble (text : String)
  | botBubble (text : String)
  | typingIndicator
deriving DecidableEq

/-- One Dash output slot: a callback returns either a fresh value or the
sentinel no_update that leaves the component untouched. -/
inductive DashUpdate (α : Type) where
  | update (value : α)
  | noUpdate
deriving DecidableEq

/-- The Python runtime error relevant here: an unbound global name. -/
inductive PyError where
  | nameError (name : String)
deriving DecidableEq

/-- Which input fired the callback, read from the prop_id field of the
triggered callback context on app.py lines 350 and 378. -/
inductive Trigger where
  | submitButton
  | fakeTyping
  | other
deriving DecidableEq

/-- The four outputs of update_chat, app.py lines 334-338: chat-history
children, chat-store data, user-input value and fake-typing disabled. -/
structure CallbackOut where
  chatChildren : DashUpdate (List Rendered)
  chatStore : DashUpdate (List ChatPair)
  userInputValue : DashUpdate String
  fakeTypingDisabled : DashUpdate Bool
deriving DecidableEq

/-- Transcript rendering loop, app.py lines 354-363: one user bubble and
one bot bubble per recorded pair, in log order. -/
def renderHistory (history : List ChatPair) : List Rendered :=
  (history.map fun chat => [Rendered.userBubble chat.user, Rendered.botBubble chat.bot]).flatten

/-- Body of the submit branch of update_chat after the lookup of the
global cv_app succeeds, app.py lines 351-376: compute the response, append
the pair to the history, re-render the whole transcript from the history,
append the typing indicator after it, clear the input field and enable the
fake-typing interval (disabled set to false). -/
def submitBranchBody (queryFn : String → String) (user_input : String)
    (chat_history : List ChatPair) : CallbackOut :=
  let response := queryFn user_input
  let history := chat_history ++ [ChatPair.mk user_input response]
  { chatChildren := DashUpdate.update (renderHistory history ++ [Rendered.typingIndicator])
  , chatStore := DashUpdate.update history
  , userInputValue := DashUpdate.update ""
  , fakeTypingDisabled := DashUpdate.update false }

/-- Names bound at module level of src/app.py: the imports of lines 1-10,
logger (line 13), temp (line 17, bound when the credentials variable is
set), the defs of lines 28, 51, 75 and 345, app and server (lines
126-127), and port (line 384, bound under the main guard). No statement of
the module binds the name cv_app. -/
def moduleBindings : List String :=
  ["dash", "html", "dcc", "Input", "Output", "State", "os", "tempfile",
   "OpenAI", "OpenAIEmbeddings", "FAISS", "storage", "logging", "logger",
   "temp", "download_index_folder", "load_vector_store", "CVQueryApp",
   "app", "server", "update_chat", "port"]

/-- The Dash callback update_chat, app.py lines 345-381. The queryFn
parameter is the bound method the expression cv_app.query would denote if
the global name cv_app were bound; the submit branch first resolves that
global against the module bindings and raises NameError when it is absent,
before any response is computed or appended (line 351). The timer branch
(lines 378-379) and the fall-through (line 381) leave everything untouched
except disabling the interval. -/
def update_chat (queryFn : String → String) (triggered : Bool) (trigger : Trigger)
    (user_input : String) (chat_history : List ChatPair) : Except PyError CallbackOut :=
  if triggered = false then
    Except.ok (CallbackOut.mk DashUpdate.noUpdate DashUpdate.noUpdate
      DashUpdate.noUpdate DashUpdate.noUpdate)
  else
    match trigger with
    | Trigger.submitButton =>
      if moduleBindings.contains "cv_app" then
        Except.ok (submitBranchBody queryFn user_input chat_history)
      else
        Except.error (PyError.nameError "cv_app")
    | Trigger.fakeTyping =>
      Except.ok (CallbackOut.mk DashUpdate.noUpdate DashUpdate.noUpdate
        DashUpdate.noUpdate (DashUpdate.update true))
    | Trigger.other =>
      Except.ok (CallbackOut.mk DashUpdate.noUpdate DashUpdate.noUpdate
        DashUpdate.noUpdate (DashUpdate.update true))

/-- Sequential session: submit each question through update_chat in turn,
threading the chat store between turns the way the Dash store state does;
the first raised error aborts the session run. -/
def runSession (queryFn : String → String) :
    List String → List ChatPair → Except PyError (List ChatPair)
  | [], history => Except.ok history
  | q :: qs, history =>
    match update_chat queryFn true Trigger.submitButton q history with
    | Except.error e => Except.error e
    | Except.ok out =>
      match out.chatStore with
      | DashUpdate.update h => runSession queryFn qs h
      | DashUpdate.noUpdate => runSession queryFn qs history

/-- Projection of the rendered-children output, for stating transcript
facts; no_update projects to the empty rendering. -/
def childrenOf (out : CallbackOut) : List Rendered :=
  match out.chatChildren with
  | DashUpdate.update l => l
  | DashUpdate.noUpdate => []

/-- A question is blank when it consists solely of whitespace. -/
def isBlank (s : String) : Bool := s.data.all Char.isWhitespace

/-- Result of one run of module import plus the main guard of app.py. -/
structure StartupState where
  googleCredentialsMaterialized : Bool
  cvAppConstructed : Bool
  serverBound : Bool
deriving DecidableEq

/-- Module-level execution of app.py followed by the main guard, statement
by statement: lines 16-23 write a temporary credentials file when the
GOOGLE_CREDENTIALS_JSON variable is set and nonempty and only log an error
otherwise; lines 28-124 are def and class statements; lines 126-381 build
the Dash app, layout and callback registration; lines 383-385 read PORT
and call run_server, binding the listener. No module statement constructs
a CVQueryApp or binds cv_app, and none reads OPENAI_API_KEY, so the
listener binds regardless of that variable. -/
def runModule (env : String → Option String) : StartupState :=
  { googleCredentialsMaterialized :=
      match env "GOOGLE_CREDENTIALS_JSON" with
      | none => false
      | some s => !(s == "")
  , cvAppConstructed := false
  , serverBound := true }

/-- The constructor CVQueryApp, app.py lines 76-93: read OPENAI_API_KEY
and raise when it is missing or empty (Python falsiness of the empty
string, line 79); then construct the client and the embeddings (pure
here) and load the vector store, whose own failure propagates; the except
clause logs and re-raises, so every failure escapes. The loaded store,
here a chunk list, is the constructed state. -/
def CVQueryApp.init (env : String → Option String)
    (loadVectorStore : Except String (List Doc)) : Except String (List Doc) :=
  match env "OPENAI_API_KEY" with
  | none => Except.error "OPENAI_API_KEY not found!"
  | some key =>
    if key = "" then Except.error "OPENAI_API_KEY not found!"
    else loadVectorStore

/-- Remote object as listed under the bucket prefix: key and bytes. -/
structure Blob where
  name : String
  content : String
deriving DecidableEq

/-- Local destination directory: file name to file bytes, none if absent. -/
abbrev FileSystem := String → Option String

/-- Python endswith for the path separator, reduced to character lists so
concrete instances evaluate: true exactly when the key is nonempty and its
last character is the separator (app.py line 41). -/
def endsWithSep (s : String) : Bool := s.data.getLastD 'x' == '/'

/-- Characters after the last separator: scanning left to right, a
separator resets the accumulator. This is the semantics of os.path
basename on the forward-slash keys of object storage. -/
def basenameChars : List Char → List Char :=
  fun cs => cs.foldl (fun acc c => if c = '/' then [] else acc ++ [c]) []

/-- Basename of an object key, app.py line 45. -/
def basename (s : String) : String := String.mk (basenameChars s.data)

/-- Writing one downloaded file, overwriting any existing file of the same
name: download_to_filename on app.py line 48. -/
def fsWrite (fs : FileSystem) (key value : String) : FileSystem :=
  fun k => if k = key then some value else fs k

/-- The function download_index_folder, app.py lines 28-49: walk the
listed blobs in listing order, skip keys that end in the separator, and
write each remaining blob into the destination under its basename. The
bucket listing is the blob-list argument and the destination directory is
the filesystem argument. -/
def download_index_folder : List Blob → FileSystem → FileSystem
  | [], fs => fs
  | b :: rest, fs =>
    if endsWithSep b.name then download_index_folder rest fs
    else download_index_folder rest (fsWrite fs (basename b.name) b.content)

/-- Net effect of a listing on one file name: the content of the last
non-directory blob whose basename is that name, if any. -/
def lastWrite : List Blob → String → Option String
  | [], _ => none
  | b :: rest, k =>
    match lastWrite rest k with
    | some c => some c
    | none =>
      if endsWithSep b.name = false ∧ k = basename b.name then some b.content else none

/-- Modelled from the spec: the retrieval algorithm itself lives in the
FAISS and LangChain libraries, outside this repository; src/app.py lines
97-100 only invoke it with search type mmr and k 8, fetch_k 20,
lambda_mult 0.7. Relevance of a chunk to the embedded query and pairwise
chunk similarity are abstract score functions throughout. This definition
is the first maximizer of a score over a candidate list, the earliest
candidate winning ties. -/
def argmaxBy {α : Type} (f : α → ℚ) : List α → Option α
  | [] => none
  | x :: xs =>
    match argmaxBy f xs with
    | none => some x
    | some y => if f x < f y then some y else some x

/-- Modelled from the spec: the iterative selection loop shared by the
candidate fetch and the MMR re-ranking — at each of n steps move the
score-maximal remaining candidate from the pool to the selection, the
score possibly depending on what is already selected. -/
def selectBy {α : Type} [DecidableEq α] (score : List α → α → ℚ) :
    Nat → List α → List α → List α
  | 0, _, _ => []
  | n + 1, selected, pool =>
    match argmaxBy (score selected) pool with
    | none => []
    | some c => c :: selectBy score n (selected ++ [c]) (pool.erase c)

/-- Modelled from the spec: greatest similarity of a candidate to any
already selected chunk, zero when nothing is selected yet. -/
def maxSimTo {α : Type} (sim : α → α → ℚ) (selected : List α) (c : α) : ℚ :=
  (selected.map fun s => sim c s).foldr max 0

/-- Modelled from the spec: the MMR objective — diversity times relevance
minus the complement of diversity times the greatest similarity to the
already selected chunks. -/
def mmrScore {α : Type} (lambdaMult : ℚ) (rel : α → ℚ) (sim : α → α → ℚ)
    (selected : List α) (c : α) : ℚ :=
  lambdaMult * rel c - (1 - lambdaMult) * maxSimTo sim selected c

/-- Modelled from the spec: the candidate pool, the fetch_k nearest chunks
by relevance to the embedded query. -/
def selectTop {α : Type} [DecidableEq α] (rel : α → ℚ) (fetchK : Nat)
    (index : List α) : List α :=
  selectBy (fun _ => rel) fetchK [] index

/-- Modelled from the spec: full MMR retrieval — fetch the candidate pool
of the fetch_k nearest chunks, then select k of them by the MMR objective. -/
def retrieve {α : Type} [DecidableEq α] (rel : α → ℚ) (sim : α → α → ℚ)
    (index : List α) (k fetchK : Nat) (lambdaMult : ℚ) : List α :=
  selectBy (mmrScore lambdaMult rel sim) k [] (selectTop rel fetchK index)

/-- The lambda_mult value passed on app.py line 99. -/
def lambdaMult07 : ℚ := 7 / 10

/-- The as_retriever call of app.py lines 97-100: mmr search with k 8,
fetch_k 20 and lambda_mult 0.7 over the loaded index. -/
def cvRetriever (rel : Doc → ℚ) (sim : Doc → Doc → ℚ) (index : List Doc) : List Doc :=
  retrieve rel sim index 8 20 lambdaMult07

/-- A retriever that always fails, for exercising the exception path. -/
def retrFail : String → Except String (List Doc) := fun _ => Except.error "boom"

/-- A generator that always succeeds with a fixed answer. -/
def genConst : String → String → Except String String := fun _ _ => Except.ok "fine"

/-- A retriever returning one fixed chunk whatever the question. -/
def retrOne : String → Except String (List Doc) :=
  fun _ => Except.ok [Doc.mk "Experience" "X"]

/-- A generator echoing its context and question, to observe what reaches
the completion call. -/
def genEcho : String → String → Except String String :=
  fun context question => Except.ok (context ++ "|" ++ question)

/-- A concrete stand-in for the bound query method. -/
def queryFn0 : String → String := fun q => "ans:" ++ q

/-- A concrete stand-in answering every question with the letter A. -/
def qfA : String → String := fun _ => "A"

/-- A concrete stand-in prefixing questions, for the session run. -/
def demoQuery : String → String := fun q => "A-" ++ q

/-- The empty destination directory. -/
def fsEmpty : FileSystem := fun _ => none

/-- A directory placeholder entry of the index folder. -/
def blobDir : Blob := Blob.mk "faiss_indexes/" ""

/-- A regular object of the index folder. -/
def blobIdx : Blob := Blob.mk "faiss_indexes/index.faiss" "idxbytes"

/-- Two objects in different subfolders sharing one basename. -/
def blobV1 : Blob := Blob.mk "sub/a/index.faiss" "v1"

/-- The later-listed object with the same basename as blobV1. -/
def blobV2 : Blob := Blob.mk "sub/b/index.faiss" "v2"

/-- Constant unit relevance, for witnesses. -/
def relW : Doc → ℚ := fun _ => 1

/-- Constant zero similarity, for witnesses. -/
def simW : Doc → Doc → ℚ := fun _ _ => 0

/-- A three-chunk index, for witnesses. -/
def idxW : List Doc :=
  [Doc.mk "Experience" "X", Doc.mk "Skills" "Y", Doc.mk "Projects" "Z"]

/-- Point evaluation of the fetch: each file name carries the content of
the last non-directory blob with that basename, or else the prior local
content. -/
theorem download_apply (blobs : List Blob) (fs : FileSystem) (k : String) :
    download_index_folder blobs fs k =
      match lastWrite blobs k with
      | some c => some c
      | none => fs k := by
  induction blobs generalizing fs with
  | nil => rfl
  | cons b rest ih =>
    by_cases hb : endsWithSep b.name
    · have h1 : download_index_folder (b :: rest) fs = download_index_folder rest fs := by
        simp [download_index_folder, hb]
      have h2 : lastWrite (b :: rest) k = lastWrite rest k := by
        cases h : lastWrite rest k <;> simp [lastWrite, hb, h]
      rw [h1, ih, h2]
    · have h1 : download_index_folder (b :: rest) fs =
          download_index_folder rest (fsWrite fs (basename b.name) b.content) := by
        simp [download_index_folder, hb]
      rw [h1, ih]
      cases h : lastWrite rest k with
      | some c => simp [lastWrite, h]
      | none =>
        have hb2 : endsWithSep b.name = false := by simpa using hb
        by_cases hk : k = basename b.name
        · subst hk
          simp [lastWrite, h, hb2, fsWrite]
        · simp [lastWrite, h, hb2, hk, fsWrite]

/-- A name the net writes touch is the basename of some listed blob. -/
theorem lastWrite_some (k : String) : ∀ (blobs : List Blob) (c : String),
    lastWrite blobs k = some c → ∃ b, b ∈ blobs ∧ k = basename b.name := by
  intro blobs
  induction blobs with
  | nil => intro c h; cases h
  | cons b rest ih =>
    intro c h
    cases hr : lastWrite rest k with
    | some c2 =>
      obtain ⟨b2, hmem, hk⟩ := ih c2 hr
      exact ⟨b2, List.mem_cons_of_mem b hmem, hk⟩
    | none =>
      simp only [lastWrite, hr] at h
      by_cases hc : endsWithSep b.name = false ∧ k = basename b.name
      · exact ⟨b, List.mem_cons_self b rest, hc.2⟩
      · rw [if_neg hc] at h; cases h

/-- A changed file name is the basename of some listed blob. -/
theorem download_writes_only (blobs : List Blob) (fs : FileSystem) (k : String) :
    download_index_folder blobs fs k ≠ fs k → ∃ b, b ∈ blobs ∧ k = basename b.name := by
  intro hne
  have happ := download_apply blobs fs k
  cases h : lastWrite blobs k with
  | none => simp only [h] at happ; exact absurd happ hne
  | some c => exact lastWrite_some k blobs c h

/-- Listing concatenation composes the fetch runs. -/
theorem download_append (l1 l2 : List Blob) (fs : FileSystem) :
    download_index_folder (l1 ++ l2) fs =
      download_index_folder l2 (download_index_folder l1 fs) := by
  induction l1 generalizing fs with
  | nil => rfl
  | cons b rest ih =>
    by_cases hb : endsWithSep b.name <;> simp [download_index_folder, hb, ih]

/-- An argmax over the empty list only. -/
theorem argmaxBy_eq_none {α : Type} (f : α → ℚ) (l : List α) :
    argmaxBy f l = none ↔ l = [] := by
  cases l with
  | nil => simp [argmaxBy]
  | cons x xs =>
    simp only [argmaxBy]
    cases argmaxBy f xs with
    | none => simp
    | some y => by_cases h : f x < f y <;> simp [h]

/-- The argmax is drawn from the list. -/
theorem argmaxBy_mem {α : Type} (f : α → ℚ) (l : List α) (c : α) :
    argmaxBy f l = some c → c ∈ l := by
  induction l with
  | nil => intro h; cases h
  | cons x xs ih =>
    intro h
    simp only [argmaxBy] at h
    cases hx : argmaxBy f xs with
    | none =>
      rw [hx] at h
      injection h with h
      exact h ▸ List.mem_cons_self x xs
    | some y =>
      simp only [hx] at h
      by_cases hlt : f x < f y
      · rw [if_pos hlt] at h
        injection h with h
        exact List.mem_cons_of_mem x (ih (h ▸ hx))
      · rw [if_neg hlt] at h
        injection h with h
        exact h ▸ List.mem_cons_self x xs

/-- The selection loop returns exactly the minimum of the step budget and
the pool size. -/
theorem selectBy_length {α : Type} [DecidableEq α] (score : List α → α → ℚ)
    (n : Nat) : ∀ (selected pool : List α),
      (selectBy score n selected pool).length = min n pool.length := by
  induction n with
  | zero => intro selected pool; simp [selectBy]
  | succ n ih =>
    intro selected pool
    simp only [selectBy]
    cases hp : argmaxBy (score selected) pool with
    | none =>
      have hnil : pool = [] := (argmaxBy_eq_none _ _).1 hp
      subst hnil; simp
    | some c =>
      have hc : c ∈ pool := argmaxBy_mem _ _ _ hp
      have hlen : (pool.erase c).length = pool.length - 1 := List.length_erase_of_mem hc
      have hpos : 0 < pool.length := List.length_pos.2 (by rintro rfl; cases hc)
      simp only [List.length_cons, ih]
      rw [hlen]
      omega

/-- Every selected element is drawn from the pool. -/
theorem selectBy_subset {α : Type} [DecidableEq α] (score : List α → α → ℚ)
    (n : Nat) : ∀ (selected pool : List α) (x : α),
      x ∈ selectBy score n selected pool → x ∈ pool := by
  induction n with
  | zero => intro _ _ _ h; simp [selectBy] at h
  | succ n ih =>
    intro selected pool x h
    simp only [selectBy] at h
    cases hp : argmaxBy (score selected) pool with
    | none => rw [hp] at h; cases h
    | some c =>
      rw [hp] at h
      rcases List.mem_cons.1 h with rfl | h2
      · exact argmaxBy_mem _ _ _ hp
      · exact List.mem_of_mem_erase (ih _ _ _ h2)

/-- C1: when any step of the query pipeline fails, CVQueryApp.query
returns the message behind the error marker instead of raising, the
returned string begins with the error marker, the submit turn built on it
still appends the pair (so the previously recorded pairs survive as a
prefix of the new log) and the session stays usable for the next
question. -/
theorem query_error_isolation :
    ∀ (retr : String → Except String (List Doc))
      (gen : String → String → Except String String)
      (q e : String) (hist : List ChatPair),
      pipelineRun retr gen q = Except.error e →
      CVQueryApp.query retr gen q = "Error: " ++ e ∧
      (∃ rest, CVQueryApp.query retr gen q = "Error: " ++ rest) ∧
      (submitBranchBody (CVQueryApp.query retr gen) q hist).chatStore =
        DashUpdate.update (hist ++ [ChatPair.mk q ("Error: " ++ e)]) ∧
      (∃ tail, hist ++ tail = hist ++ [ChatPair.mk q ("Error: " ++ e)]) := by
  intro retr gen q e hist h
  have hq : CVQueryApp.query retr gen q = "Error: " ++ e := by
    unfold CVQueryApp.query
    rw [h]
  refine ⟨hq, ⟨e, hq⟩, ?_, ⟨[ChatPair.mk q ("Error: " ++ e)], rfl⟩⟩
  simp [submitBranchBody, hq]

/-- Witness for C1 at a concrete failing retriever. -/
theorem query_error_isolation_witness :
    CVQueryApp.query retrFail genConst "Q" = "Error: " ++ "boom" ∧
    (∃ rest, CVQueryApp.query retrFail genConst "Q" = "Error: " ++ rest) ∧
    (submitBranchBody (CVQueryApp.query retrFail genConst) "Q"
        [ChatPair.mk "P" "A"]).chatStore =
      DashUpdate.update ([ChatPair.mk "P" "A"] ++ [ChatPair.mk "Q" ("Error: " ++ "boom")]) ∧
    (∃ tail, [ChatPair.mk "P" "A"] ++ tail =
      [ChatPair.mk "P" "A"] ++ [ChatPair.mk "Q" ("Error: " ++ "boom")]) :=
  query_error_isolation retrFail genConst "Q" "boom" [ChatPair.mk "P" "A"] rfl

/-- C2: the retriever invocation with its source defaults k 8, fetch_k 20,
lambda_mult 0.7 returns exactly the minimum of 8 and the number of
available chunks, hence at most 8 chunks, each drawn from the fetched pool
of the 20 nearest candidates; the order of the returned list is the
selection order by construction of the selection loop. -/
theorem mmr_retrieval_contract :
    ∀ (rel : Doc → ℚ) (sim : Doc → Doc → ℚ) (index : List Doc),
      (cvRetriever rel sim index).length = min 8 index.length ∧
      (cvRetriever rel sim index).length ≤ 8 ∧
      (cvRetriever rel sim index) ⊆ selectTop rel 20 index := by
  intro rel sim index
  have hpool : (selectTop rel 20 index).length = min 20 index.length :=
    selectBy_length _ _ _ _
  have hlen : (cvRetriever rel sim index).length = min 8 (min 20 index.length) := by
    unfold cvRetriever retrieve
    rw [selectBy_length]
    unfold selectTop
    rw [selectBy_length]
  refine ⟨?_, ?_, ?_⟩
  · rw [hlen]; omega
  · rw [hlen]; omega
  · intro x hx
    exact selectBy_subset _ _ _ _ _ hx

/-- Witness for C2 at a concrete three-chunk index. -/
theorem mmr_retrieval_contract_witness :
    (cvRetriever relW simW idxW).length = min 8 idxW.length ∧
    (cvRetriever relW simW idxW).length ≤ 8 ∧
    (cvRetriever relW simW idxW) ⊆ selectTop relW 20 idxW :=
  mmr_retrieval_contract relW simW idxW

/-- C3 evaluated at its failing input: submitting the questions Q1, Q2, Q3
in sequence never yields a transcript, because already the first submit
raises NameError on the unbound global cv_app, so no pair is appended and
no ordered transcript is ever rendered. -/
theorem session_ordering_unreachable :
    runSession demoQuery ["Q1", "Q2", "Q3"] [] =
      Except.error (PyError.nameError "cv_app") := rfl

/-- C4 evaluated at its failing input: with OPENAI_API_KEY absent the
constructor would raise, but module execution never constructs a
CVQueryApp, and the listener still binds, so the process serves traffic
without the completion key, contrary to the claim. -/
theorem startup_without_api_key :
    (∀ loadVectorStore, CVQueryApp.init (fun _ => none) loadVectorStore =
      Except.error "OPENAI_API_KEY not found!") ∧
    (runModule (fun _ => none)).serverBound = true ∧
    (runModule (fun _ => none)).cvAppConstructed = false :=
  ⟨fun _ => rfl, rfl, rfl⟩

/-- C5: the name cv_app is bound nowhere at module level, so every
submit-triggered invocation of update_chat raises NameError before a pair
is appended or an answer produced; the try clause inside CVQueryApp.query
cannot catch it because the lookup happens in the callback, outside that
method. -/
theorem cv_app_unbound :
    moduleBindings.contains "cv_app" = false ∧
    ∀ (queryFn : String → String) (input : String) (hist : List ChatPair),
      update_chat queryFn true Trigger.submitButton input hist =
        Except.error (PyError.nameError "cv_app") := by
  exact ⟨by decide, fun queryFn input hist => rfl⟩

/-- C6: context assembly is a pure function of the retrieved chunks; the
empty sequence assembles to the empty string, a single chunk assembles to
its bracketed section label, a newline and its text (in particular the
Experience and X instance of the claim), and each further block is joined
to the rest with a newline. -/
theorem assemble_context_contract :
    assembleContext [] = "" ∧
    assembleContext [Doc.mk "Experience" "X"] = "[Experience]\nX" ∧
    (∀ d : Doc, assembleContext [d] = "[" ++ d.«section» ++ "]\n" ++ d.page_content) ∧
    (∀ (d e : Doc) (ds : List Doc),
      assembleContext (d :: e :: ds) =
        ("[" ++ d.«section» ++ "]\n" ++ d.page_content) ++ "\n" ++
          assembleContext (e :: ds)) := by
  refine ⟨rfl, by decide, fun d => rfl, fun d e ds => rfl⟩

/-- C7: the index fetcher skips every separator-terminated placeholder (a
listing of only such keys leaves the destination untouched), writes each
remaining object to the destination under its basename overwriting any
existing file of that name, and re-running it on an unchanged listing
reproduces the identical local state. -/
theorem index_fetcher_contract :
    (∀ (blobs : List Blob) (fs : FileSystem),
      (∀ b, b ∈ blobs → endsWithSep b.name = true) →
      download_index_folder blobs fs = fs) ∧
    (∀ (b : Blob) (fs : FileSystem), endsWithSep b.name = false →
      download_index_folder [b] fs = fsWrite fs (basename b.name) b.content) ∧
    (∀ (blobs : List Blob) (fs : FileSystem),
      download_index_folder blobs (download_index_folder blobs fs) =
        download_index_folder blobs fs) := by
  refine ⟨?_, ?_, ?_⟩
  · intro blobs
    induction blobs with
    | nil => intro fs _; rfl
    | cons b rest ih =>
      intro fs hall
      have hb : endsWithSep b.name = true := hall b (List.mem_cons_self b rest)
      have hrest : ∀ x, x ∈ rest → endsWithSep x.name = true :=
        fun x hx => hall x (List.mem_cons_of_mem b hx)
      simp [download_index_folder, hb, ih fs hrest]
  · intro b fs hb
    simp [download_index_folder, hb]
  · intro blobs fs
    funext k
    rw [download_apply, download_apply]
    cases lastWrite blobs k <;> rfl

/-- Witness for C7 at a concrete placeholder, object and listing. -/
theorem index_fetcher_contract_witness :
    download_index_folder [blobDir] fsEmpty = fsEmpty ∧
    download_index_folder [blobIdx] fsEmpty =
      fsWrite fsEmpty (basename blobIdx.name) blobIdx.content ∧
    download_index_folder [blobDir, blobIdx]
        (download_index_folder [blobDir, blobIdx] fsEmpty) =
      download_index_folder [blobDir, blobIdx] fsEmpty :=
  ⟨index_fetcher_contract.1 [blobDir] fsEmpty (by decide),
   index_fetcher_contract.2.1 blobIdx fsEmpty (by decide),
   index_fetcher_contract.2.2 [blobDir, blobIdx] fsEmpty⟩

/-- C8 counterexample: in the very output in which the answer A to the
question Q has been produced and rendered, the submit branch appends the
typing indicator after the answer bubbles and returns disabled false for
the interval, so the typing animation does remain active once the real
response is ready, refuting the claim at this concrete input. -/
theorem typing_indicator_not_inert :
    (submitBranchBody qfA "Q" []).fakeTypingDisabled = DashUpdate.update false ∧
    childrenOf (submitBranchBody qfA "Q" []) =
      [Rendered.userBubble "Q", Rendered.botBubble "A", Rendered.typingIndicator] := by
  decide

/-- C8 amended: the timer branch performs no retrieval, generation or
history change — its output ignores the query function, leaves transcript,
store and input untouched and only disables the interval — while the
submit branch appends the typing-indicator markup after the rendered
answer and re-enables the interval, so the indicator is not inert once the
response is ready. -/
theorem typing_indicator_behaviour :
    (∀ (queryFn : String → String) (input : String) (hist : List ChatPair),
      update_chat queryFn true Trigger.fakeTyping input hist =
        Except.ok (CallbackOut.mk DashUpdate.noUpdate DashUpdate.noUpdate
          DashUpdate.noUpdate (DashUpdate.update true))) ∧
    (∀ (queryFn : String → String) (input : String) (hist : List ChatPair),
      (submitBranchBody queryFn input hist).fakeTypingDisabled =
        DashUpdate.update false ∧
      childrenOf (submitBranchBody queryFn input hist) =
        renderHistory (hist ++ [ChatPair.mk input (queryFn input)]) ++
          [Rendered.typingIndicator]) :=
  ⟨fun _ _ _ => rfl, fun _ _ _ => ⟨rfl, rfl⟩⟩

/-- C9: the submitted question reaches the pipeline verbatim: whatever the
retrieval returns for the exact question string, query hands the assembled
context and the same unmodified question to the generator, and the submit
branch stores the question verbatim; no trimming, emptiness check or
special case anywhere distinguishes a blank or whitespace-only question
from any other. -/
theorem blank_question_passthrough :
    ∀ (q : String) (retr : String → Except String (List Doc))
      (gen : String → String → Except String String)
      (docs : List Doc) (queryFn : String → String) (hist : List ChatPair),
      retr q = Except.ok docs →
      CVQueryApp.query retr gen q =
        (match gen (assembleContext docs) q with
         | Except.ok a => a
         | Except.error e => "Error: " ++ e) ∧
      (submitBranchBody queryFn q hist).chatStore =
        DashUpdate.update (hist ++ [ChatPair.mk q (queryFn q)]) := by
  intro q retr gen docs queryFn hist h
  refine ⟨?_, rfl⟩
  unfold CVQueryApp.query pipelineRun
  rw [h]
  rfl

/-- Witness for C9 at the whitespace-only question of three spaces. -/
theorem blank_question_passthrough_witness :
    isBlank "   " = true ∧
    (CVQueryApp.query retrOne genEcho "   " =
      (match genEcho (assembleContext [Doc.mk "Experience" "X"]) "   " with
       | Except.ok a => a
       | Except.error e => "Error: " ++ e) ∧
     (submitBranchBody queryFn0 "   " []).chatStore =
       DashUpdate.update ([] ++ [ChatPair.mk "   " (queryFn0 "   ")])) :=
  ⟨by decide,
   blank_question_passthrough "   " retrOne genEcho [Doc.mk "Experience" "X"]
     queryFn0 [] rfl⟩

/-- C10: the fetch flattens the remote tree: a file changes only at the
basename of some listed key; whatever precedes it, the last listed
non-directory object determines the content stored under its basename;
concretely, two objects in different subfolders sharing a basename
collapse to a single local file holding the later content, so the local
directory holds fewer files than the listing has objects. -/
theorem download_flattening :
    (∀ (pre : List Blob) (b : Blob) (fs : FileSystem), endsWithSep b.name = false →
      download_index_folder (pre ++ [b]) fs (basename b.name) = some b.content) ∧
    (∀ (blobs : List Blob) (fs : FileSystem) (k : String),
      download_index_folder blobs fs k ≠ fs k → ∃ b, b ∈ blobs ∧ k = basename b.name) ∧
    (∀ k, download_index_folder [blobV1, blobV2] fsEmpty k ≠ none → k = "index.faiss") ∧
    download_index_folder [blobV1, blobV2] fsEmpty "index.faiss" = some "v2" ∧
    [blobV1, blobV2].length = 2 := by
  have hlast : ∀ (pre : List Blob) (b : Blob) (fs : FileSystem),
      endsWithSep b.name = false →
      download_index_folder (pre ++ [b]) fs (basename b.name) = some b.content := by
    intro pre b fs hb
    rw [download_append]
    simp [download_index_folder, hb, fsWrite]
  refine ⟨hlast, fun blobs fs k => download_writes_only blobs fs k, ?_, by decide, by decide⟩
  intro k hk
  obtain ⟨b, hmem, hkb⟩ := download_writes_only [blobV1, blobV2] fsEmpty k hk
  have : b = blobV1 ∨ b = blobV2 := by
    rcases List.mem_cons.1 hmem with h1 | h2
    · exact Or.inl h1
    · rcases List.mem_cons.1 h2 with h3 | h4
      · exact Or.inr h3
      · cases h4
  rcases this with rfl | rfl
  · rw [hkb]; decide
  · rw [hkb]; decide

/-- Witness for C10 at the concrete colliding listing. -/
theorem download_flattening_witness :
    download_index_folder ([blobV1] ++ [blobV2]) fsEmpty (basename blobV2.name) =
      some blobV2.content ∧
    (∃ b, b ∈ [blobV1, blobV2] ∧ "index.faiss" = basename b.name) ∧
    ("index.faiss" : String) = "index.faiss" :=
  ⟨download_flattening.1 [blobV1] blobV2 fsEmpty (by decide),
   download_flattening.2.1 [blobV1, blobV2] fsEmpty "index.faiss" (by decide),
   download_flattening.2.2.1 "index.faiss" (by decide)⟩
